import Mathlib

/-!
Verification of the session tracker, validators, time normalization and
entity views of the planner application ("src/app.py", "src/db.py",
"src/models.py", "src/utils.py").

Modelling conventions:
* Timestamps ("datetime.utcnow()") are modelled as nonnegative seconds
  (`Nat`); the clock is monotone, so elapsed times `now - last_active`
  are computed with truncated `Nat` subtraction.
* Session tokens ("secrets.token_urlsafe(16)") are opaque values,
  modelled as `Nat`.  The random token source produces tokens of high
  entropy; where a claim needs the fresh token to differ from a stored
  one that freshness is an explicit hypothesis.
* Python strings are modelled as `List Char`; `s[:5]` is `List.take 5`.
* The session map `ACTIVE_USER_SESSIONS` (user -> {token, last_active})
  is modelled as a function `String → Option SessionData`; a missing
  `last_active` key (`data.get('last_active')` falsy) is `Option.none`
  inside `SessionData`.
-/

/-- One value of `ACTIVE_USER_SESSIONS`: `{'token': ..., 'last_active': ...}`
("src/app.py" line 236).  `last_active = none` models a missing key. -/
structure SessionData where
  token : Nat
  last_active : Option Nat
deriving DecidableEq, Repr

/-- The session map `ACTIVE_USER_SESSIONS` ("src/app.py" line 37). -/
def Sessions : Type := String → Option SessionData

/-- The empty session map. -/
def Sessions.empty : Sessions := fun _ => none

/-- `ACTIVE_USER_SESSIONS[u] = d` (dictionary assignment). -/
def Sessions.set (m : Sessions) (u : String) (d : SessionData) : Sessions :=
  fun v => if v = u then some d else m v

/-- `ACTIVE_USER_SESSIONS.pop(u, None)` (removal, no error on absence). -/
def Sessions.pop (m : Sessions) (u : String) : Sessions :=
  fun v => if v = u then none else m v

/-- `SESSION_TTL_MINUTES = 30` ("src/app.py" line 38). -/
def SESSION_TTL_MINUTES : Nat := 30

/-- The inactivity TTL `timedelta(minutes=SESSION_TTL_MINUTES)` in seconds. -/
def TTL_SECONDS : Nat := SESSION_TTL_MINUTES * 60

/-- `cleanup_expired_sessions()` ("src/app.py" lines 41-69): removes every
entry whose `last_active` is missing or whose inactivity strictly exceeds
the TTL (`inactive_time > timedelta(minutes=SESSION_TTL_MINUTES)`).
The Python code iterates, collects expired users and pops them; the
pointwise filter below has exactly that effect on the map. -/
def cleanup (m : Sessions) (now : Nat) : Sessions := fun v =>
  match m v with
  | none => none
  | some d =>
    match d.last_active with
    | none => none
    | some la => if TTL_SECONDS < now - la then none else some d

/-- The session-relevant part of the `login_required` decorator
("src/app.py" lines 122-160), given a request that carries a (non-empty)
user and cookie token.  Returns the decision and the resulting map:
* no entry, or stored token differs from the presented one: fail,
  only the client cookie session is cleared — the map is untouched
  (lines 130-137);
* entry with missing `last_active`: fail and pop the entry (lines 140-145);
* inactivity strictly beyond the TTL: fail and pop the entry (lines 150-155);
* otherwise succeed and refresh `last_active` to `now` (line 158). -/
def authenticate (m : Sessions) (u : String) (tok : Nat) (now : Nat) :
    Bool × Sessions :=
  match m u with
  | none => (false, m)
  | some d =>
    if d.token ≠ tok then (false, m)
    else
      match d.last_active with
      | none => (false, m.pop u)
      | some la =>
        if TTL_SECONDS < now - la then (false, m.pop u)
        else (true, m.set u ⟨d.token, some now⟩)

/-- Result of a POST to `/login` ("src/app.py" lines 198-243). -/
inductive LoginResult where
  /-- Credentials verified, session registered with the fresh token. -/
  | granted (token : Nat)
  /-- Another live session exists and `force` was false (line 212). -/
  | rejected (minutes_remaining : Nat)
  /-- `verificar_usuario` failed (line 243, "Credenciales inválidas"). -/
  | badCreds
deriving DecidableEq, Repr

/-- PASO 4 of `/login` ("src/app.py" lines 227-243): verify credentials and
on success register `{token, last_active: now}` under the user.
`credsOk` is the outcome of `verificar_usuario` (external user store),
`newTok` the value drawn from the random token source. -/
def loginFinish (m : Sessions) (u : String) (now : Nat) (credsOk : Bool)
    (newTok : Nat) : LoginResult × Sessions :=
  if credsOk then (.granted newTok, m.set u ⟨newTok, some now⟩)
  else (.badCreds, m)

/-- The session logic of a POST to `/login` ("src/app.py" lines 198-243):
PASO 1 cleans expired sessions globally; PASO 2 rejects when an entry
survives with inactivity strictly below the TTL and `force` is false
(and pops the surviving entry otherwise); PASO 3 pops the entry on a
forced login; PASO 4 verifies credentials and registers the session. -/
def login (m : Sessions) (u : String) (now : Nat) (force : Bool)
    (credsOk : Bool) (newTok : Nat) : LoginResult × Sessions :=
  let m1 := cleanup m now
  match m1 u, force with
  | some d, false =>
    match d.last_active with
    | some la =>
      if now - la < TTL_SECONDS then
        (.rejected (SESSION_TTL_MINUTES - (now - la) / 60), m1)
      else loginFinish (m1.pop u) u now credsOk newTok
    | none => loginFinish (m1.pop u) u now credsOk newTok
  | some _, true => loginFinish (m1.pop u) u now credsOk newTok
  | none, _ => loginFinish m1 u now credsOk newTok

/-- `/logout` ("src/app.py" lines 248-260): the guarded
`if usuario in ACTIVE_USER_SESSIONS: pop(usuario, None)` has exactly the
effect of an unconditional pop on the map. -/
def logout (m : Sessions) (u : String) : Sessions := m.pop u

/-- `/admin/cerrar-sesion-usuario` ("src/app.py" lines 1222-1234): pops the
target's entry when present (success flash, `true`), otherwise leaves the
map alone and flashes an error message (`false`) — no exception either way. -/
def terminate (m : Sessions) (u : String) : Sessions × Bool :=
  match m u with
  | some _ => (m.pop u, true)
  | none => (m, false)

/-- The session move of `/cambiar-nombre` ("src/app.py" lines 1326-1333):
if the client cookie holds a token, pop the entry under the old name and
register `{token, last_active: now}` under the new name; with no cookie
token the map is untouched. -/
def rename (m : Sessions) (oldU newU : String) (cookieTok : Option Nat)
    (now : Nat) : Sessions :=
  match cookieTok with
  | some tok => (m.pop oldU).set newU ⟨tok, some now⟩
  | none => m

/-! ### Validators ("src/utils.py") -/

/-- A digit run at the front of the input (what one alternative of the
`_strptime` regex can consume before a literal separator). -/
def digitRun (cs : List Char) : List Char × List Char :=
  (cs.takeWhile Char.isDigit, cs.dropWhile Char.isDigit)

/-- Numeric value of a digit string, `int(s)` on a string of ASCII digits. -/
def parseNatL (s : List Char) : Nat :=
  s.foldl (fun a c => a * 10 + (c.toNat - 48)) 0

/-- CPython `_strptime` directive `%Y`: exactly four digits. -/
def parseYear4 : List Char → Option (Nat × List Char)
  | a :: b :: c :: d :: rest =>
    if a.isDigit && b.isDigit && c.isDigit && d.isDigit then
      some (parseNatL [a, b, c, d], rest)
    else none
  | _ => none

/-- CPython `_strptime` directive `%m` (`1[0-2]|0[1-9]|[1-9]`) followed by a
non-digit: a two-digit run must read 01-12, a one-digit run 1-9; a run of
any other length cannot match (backtracking to one digit leaves a digit
in front of the literal separator). -/
def parseMonth (cs : List Char) : Option (Nat × List Char) :=
  let (run, rest) := digitRun cs
  match run with
  | [d] => if '1' ≤ d ∧ d ≤ '9' then some (parseNatL [d], rest) else none
  | [d1, d2] =>
    let v := parseNatL [d1, d2]
    if 1 ≤ v ∧ v ≤ 12 then some (v, rest) else none
  | _ => none

/-- CPython `_strptime` directive `%d` (`3[01]|[12]\d|0[1-9]|[1-9]`) at the
end of the format: a two-digit run must read 01-31, a one-digit run 1-9. -/
def parseDay (cs : List Char) : Option (Nat × List Char) :=
  let (run, rest) := digitRun cs
  match run with
  | [d] => if '1' ≤ d ∧ d ≤ '9' then some (parseNatL [d], rest) else none
  | [d1, d2] =>
    let v := parseNatL [d1, d2]
    if 1 ≤ v ∧ v ≤ 31 then some (v, rest) else none
  | _ => none

/-- Gregorian leap year, as `datetime.date` uses. -/
def isLeap (y : Nat) : Bool := y % 4 == 0 && (y % 100 != 0 || y % 400 == 0)

/-- Days in a month, as validated by the `datetime.date` constructor. -/
def daysInMonth (y m : Nat) : Nat :=
  if m = 2 then (if isLeap y then 29 else 28)
  else if m = 4 ∨ m = 6 ∨ m = 9 ∨ m = 11 then 30
  else 31

/-- `datetime.strptime(s, '%Y-%m-%d')`: the `_strptime` regex match plus the
`date(year, month, day)` constructor check (`MINYEAR = 1`, day within the
month's length). -/
def strptimeYmd (cs : List Char) : Option (Nat × Nat × Nat) :=
  match parseYear4 cs with
  | none => none
  | some (y, r1) =>
    match r1 with
    | '-' :: r2 =>
      match parseMonth r2 with
      | none => none
      | some (m, r3) =>
        match r3 with
        | '-' :: r4 =>
          match parseDay r4 with
          | none => none
          | some (d, r5) =>
            if r5 = [] ∧ 1 ≤ y ∧ 1 ≤ d ∧ d ≤ daysInMonth y m then
              some (y, m, d)
            else none
        | _ => none
    | _ => none

/-- `validar_fecha_formato` ("src/utils.py" lines 56-72): falsy input is
invalid, otherwise the string must parse with `strptime(..., '%Y-%m-%d')`. -/
def validar_fecha_formato (cs : List Char) : Bool :=
  if cs = [] then false else (strptimeYmd cs).isSome

/-- CPython `_strptime` directive `%H` (`2[0-3]|[0-1]\d|\d`) before the
literal colon: a two-digit run must read 00-23, a one-digit run 0-9. -/
def parseHour (cs : List Char) : Option (Nat × List Char) :=
  let (run, rest) := digitRun cs
  match run with
  | [d] => if d.isDigit then some (parseNatL [d], rest) else none
  | [d1, d2] =>
    let v := parseNatL [d1, d2]
    if v ≤ 23 then some (v, rest) else none
  | _ => none

/-- CPython `_strptime` directive `%M` (`[0-5]\d|\d`) at the end of the
format: a two-digit run must read 00-59, a one-digit run 0-9. -/
def parseMinute (cs : List Char) : Option (Nat × List Char) :=
  let (run, rest) := digitRun cs
  match run with
  | [d] => if d.isDigit then some (parseNatL [d], rest) else none
  | [d1, d2] =>
    let v := parseNatL [d1, d2]
    if v ≤ 59 then some (v, rest) else none
  | _ => none

/-- `datetime.strptime(s, '%H:%M')`. -/
def strptimeHM (cs : List Char) : Option (Nat × Nat) :=
  match parseHour cs with
  | none => none
  | some (h, r1) =>
    match r1 with
    | ':' :: r2 =>
      match parseMinute r2 with
      | none => none
      | some (mi, r3) => if r3 = [] then some (h, mi) else none
    | _ => none

/-- `validar_hora_formato` ("src/utils.py" lines 144-160). -/
def validar_hora_formato (cs : List Char) : Bool :=
  if cs = [] then false else (strptimeHM cs).isSome

/-- `p` occurs as a contiguous substring of `s` (Python `re.search` with a
literal pattern). -/
def occursIn (p : List Char) : List Char → Bool
  | [] => p.isPrefixOf ([] : List Char)
  | c :: rest => p.isPrefixOf (c :: rest) || occursIn p rest

/-- The deny-list of `validar_texto_seguro` ("src/utils.py" line 47); the
patterns contain no regex metacharacters, so `re.search` is a substring
test on the lowercased text. -/
def patrones_peligrosos : List (List Char) :=
  ["<script".toList, "javascript:".toList, "onerror=".toList, "onclick=".toList]

/-- `validar_texto_seguro(texto, max_length, required)` ("src/utils.py"
lines 26-53) on string input: falsy (empty) text is valid iff not
required; over-long text is invalid; text containing a deny-listed
substring (case-insensitively) is invalid. -/
def validar_texto_seguro (texto : List Char) (maxLength : Nat)
    (required : Bool) : Bool :=
  if texto = [] then !required
  else if maxLength < texto.length then false
  else if patrones_peligrosos.any
      (fun p => occursIn p (texto.map Char.toLower)) then false
  else true

/-- `validar_id` ("src/utils.py" lines 10-23) on an integer input:
`int(v) > 0`. -/
def validar_id (v : Int) : Bool := 0 < v

/-! ### Persistence gateway: `crear_evento` ("src/db.py" lines 226-267) -/

/-- A row of the `eventos` table as inserted by `crear_evento`. -/
structure EventRow where
  nombre : List Char
  descripcion : Option (List Char)
  fecha_evento : List Char
  hora_evento : List Char
  creador_evento : Int
  fecha_fin : Option (List Char)
  hora_fin : Option (List Char)
deriving DecidableEq, Repr

/-- Python truthiness of an optional string argument (`None` and `''` are
falsy). -/
def truthyOpt : Option (List Char) → Bool
  | none => false
  | some s => s ≠ []

/-- `crear_evento(nombre, fecha_evento, hora_evento, creador_id, fecha_fin,
hora_fin, descripcion)` ("src/db.py" lines 226-267).  Every validator runs
before `get_connection()` is called, so a validation failure raises
`ValueError` with the store untouched; on success the row is inserted.
The result pairs the raised message (if any) with the resulting store. -/
def crear_evento (nombre fecha_evento hora_evento : List Char)
    (creador_id : Int) (fecha_fin hora_fin descripcion : Option (List Char))
    (store : List EventRow) : Option (List Char) × List EventRow :=
  if validar_texto_seguro nombre 100 true = false then
    (some "Nombre de evento inválido".toList, store)
  else if validar_fecha_formato fecha_evento = false then
    (some "Fecha de evento inválida".toList, store)
  else if validar_hora_formato hora_evento = false then
    (some "Hora de evento inválida".toList, store)
  else if validar_id creador_id = false then
    (some "ID de creador inválido".toList, store)
  else if truthyOpt descripcion
      && !(validar_texto_seguro (descripcion.getD []) 500 false) then
    (some "Descripción inválida".toList, store)
  else if truthyOpt fecha_fin
      && !(validar_fecha_formato (fecha_fin.getD [])) then
    (some "Fecha fin inválida".toList, store)
  else if truthyOpt hora_fin
      && !(validar_hora_formato (hora_fin.getD [])) then
    (some "Hora fin inválida".toList, store)
  else
    (none, store ++ [⟨nombre, descripcion, fecha_evento, hora_evento,
      creador_id, fecha_fin, hora_fin⟩])

/-! ### Time/date normalization ("src/utils.py" `normalizar_hora`,
"src/models.py" `_normalizar_hora`) -/

/-- The union of time representations arriving from the store: `None`, a
string, a `datetime.time` (whose constructor enforces hour < 24,
minute < 60, second < 60), or a `timedelta` identified by its integral
total seconds (`int(val.total_seconds())`). -/
inductive PyTime where
  | pnone
  | pstr (s : List Char)
  | pclock (h : Fin 24) (mi : Fin 60) (sec : Fin 60)
  | pdur (secs : Int)
deriving DecidableEq, Repr

/-- `f"{n:02d}"` for the arguments that occur here (all < 100): two digits,
zero padded. -/
def pad2 (n : Nat) : List Char := [Nat.digitChar (n / 10), Nat.digitChar (n % 10)]

/-- `normalizar_hora` ("src/utils.py" lines 284-312) and the identical
method `_normalizar_hora` ("src/models.py" lines 43-57 and 109-123):
falsy input (`None`, `''`, and the zero `timedelta`) gives `''`; a string
is truncated to its first five characters; a `datetime.time` is rendered
`strftime('%H:%M')` (seconds dropped); a `timedelta` is rendered from
`total = int(total_seconds())` as `(total // 3600) % 24` hours (Python
floor division and nonnegative modulus) and `(total % 3600) // 60`
minutes. -/
def normalizar_hora : PyTime → List Char
  | .pnone => []
  | .pstr s => if s = [] then [] else s.take 5
  | .pclock h mi _ => pad2 h.val ++ ':' :: pad2 mi.val
  | .pdur secs =>
    if secs = 0 then []
    else
      pad2 ((secs.fdiv 3600).emod 24).toNat
        ++ ':' :: pad2 ((secs.emod 3600).fdiv 60).toNat

/-- The union of date representations arriving from the store: `None`, a
string, or a `datetime.date` identified by its ISO rendering (`str(d)`).
`date` objects are always truthy. -/
inductive PyDate where
  | dnone
  | dstr (s : List Char)
  | ddate (iso : List Char)
deriving DecidableEq, Repr

/-- `str(v) if v else ''` as applied to date fields in `to_dict`
("src/models.py" lines 35, 37, 130): `str` of a string is itself, `str`
of a date is its ISO form. -/
def pyDateStr : PyDate → List Char
  | .dnone => []
  | .dstr s => if s = [] then [] else s
  | .ddate iso => iso

/-! ### Entity views ("src/models.py") -/

/-- The union of values a `prioridad` field may carry in a raw record:
an integer or a string. -/
inductive PyIntVal where
  | pint (n : Int)
  | pstr (s : List Char)
deriving DecidableEq, Repr

/-- Decimal digits of a natural number, most significant first
(`str(n)` for `n ≥ 0`). -/
def natToDigits (n : Nat) : List Char :=
  if _h : n < 10 then [Nat.digitChar n]
  else natToDigits (n / 10) ++ [Nat.digitChar (n % 10)]
termination_by n
decreasing_by
  simp_wf
  omega

/-- `str(n)` for an integer. -/
def intToStr (n : Int) : List Char :=
  if n < 0 then '-' :: natToDigits n.natAbs else natToDigits n.toNat

/-- `s.isdigit()`: non-empty and every character a digit (restricted to
ASCII digits; the values that reach it here are decimal renderings and
form priorities). -/
def isdigitL (s : List Char) : Bool := !s.isEmpty && s.all Char.isDigit

/-- `int(self.prioridad) if str(self.prioridad).isdigit() else
self.prioridad` ("src/models.py" line 132).  On an integer `int` is the
identity (both branches return the integer itself); on a string of
digits `int` parses it; any other string is passed through unchanged. -/
def pyIntCoerceDict : PyIntVal → PyIntVal
  | .pint n => if isdigitL (intToStr n) then .pint n else .pint n
  | .pstr s => if isdigitL s then .pint (parseNatL s) else .pstr s

/-- `Evento` ("src/models.py" lines 10-27): the wrapped record.  Fields the
class only passes through (`id`, `creador_evento`, `fecha_creacion`) keep
their raw shape; `descripcion = none` models a Python `None` value. -/
structure Evento where
  id : Option Int
  nombre : List Char
  descripcion : Option (List Char)
  fecha_evento : PyDate
  hora_evento : PyTime
  fecha_fin : PyDate
  hora_fin : PyTime
  creador_id : Option Int
  fecha_creacion : Option (List Char)
deriving DecidableEq, Repr

/-- The dictionary produced by `Evento.to_dict` ("src/models.py"
lines 29-41): date and time fields are strings. -/
structure EventoDict where
  id : Option Int
  nombre : List Char
  descripcion : Option (List Char)
  fecha_evento : List Char
  hora_evento : List Char
  fecha_fin : List Char
  hora_fin : List Char
  creador_evento : Option Int
  fecha_creacion : Option (List Char)
deriving DecidableEq, Repr

/-- `Evento.to_dict` ("src/models.py" lines 29-41). -/
def Evento.to_dict (e : Evento) : EventoDict :=
  { id := e.id
    nombre := e.nombre
    descripcion := e.descripcion
    fecha_evento := pyDateStr e.fecha_evento
    hora_evento := normalizar_hora e.hora_evento
    fecha_fin := pyDateStr e.fecha_fin
    hora_fin := normalizar_hora e.hora_fin
    creador_evento := e.creador_id
    fecha_creacion := e.fecha_creacion }

/-- `Evento(data)` ("src/models.py" lines 13-27) applied to a dictionary
produced by `to_dict`: every key is present, and the date/time values are
(re-wrapped as) strings. -/
def Evento.ofDict (d : EventoDict) : Evento :=
  { id := d.id
    nombre := d.nombre
    descripcion := d.descripcion
    fecha_evento := .dstr d.fecha_evento
    hora_evento := .pstr d.hora_evento
    fecha_fin := .dstr d.fecha_fin
    hora_fin := .pstr d.hora_fin
    creador_id := d.creador_evento
    fecha_creacion := d.fecha_creacion }

/-- `Tarea` ("src/models.py" lines 91-107): the wrapped record.  `estado`
is already coerced to an integer by `__init__` (`int(estado_raw)`, with 0
on failure). -/
structure Tarea where
  id : Option Int
  nombre : List Char
  descripcion : Option (List Char)
  fecha_limite : PyDate
  hora_evento : PyTime
  prioridad : PyIntVal
  estado : Int
  creador_id : Option Int
  fecha_creacion : Option (List Char)
deriving DecidableEq, Repr

/-- The dictionary produced by `Tarea.to_dict` ("src/models.py"
lines 125-137), including the derived `estado_str`. -/
structure TareaDict where
  id : Option Int
  nombre : List Char
  descripcion : Option (List Char)
  fecha_limite : List Char
  hora_evento : List Char
  prioridad : PyIntVal
  estado : Int
  estado_str : List Char
  creador_tarea : Option Int
  fecha_creacion : Option (List Char)
deriving DecidableEq, Repr

/-- `Tarea.to_dict` ("src/models.py" lines 125-137). -/
def Tarea.to_dict (t : Tarea) : TareaDict :=
  { id := t.id
    nombre := t.nombre
    descripcion := t.descripcion
    fecha_limite := pyDateStr t.fecha_limite
    hora_evento := normalizar_hora t.hora_evento
    prioridad := pyIntCoerceDict t.prioridad
    estado := t.estado
    estado_str := if t.estado = 1 then "Completada".toList else "Pendiente".toList
    creador_tarea := t.creador_id
    fecha_creacion := t.fecha_creacion }

/-- `Tarea(data)` ("src/models.py" lines 94-107) applied to a dictionary
produced by `to_dict`: `estado` is an integer, so `int(estado_raw)` is the
identity; `estado_str` is ignored by `__init__`. -/
def Tarea.ofDict (d : TareaDict) : Tarea :=
  { id := d.id
    nombre := d.nombre
    descripcion := d.descripcion
    fecha_limite := .dstr d.fecha_limite
    hora_evento := .pstr d.hora_evento
    prioridad := d.prioridad
    estado := d.estado
    creador_id := d.creador_tarea
    fecha_creacion := d.fecha_creacion }

/-! ### Helper lemmas -/

/-- `str(v) if v else ''` applied to a string is the string itself (both
branches of the truthiness test agree on `''`). -/
theorem pyDateStr_dstr (s : List Char) : pyDateStr (.dstr s) = s := by
  by_cases h : s = [] <;> simp [pyDateStr, h]

/-- Every output of `normalizar_hora` has at most five characters. -/
theorem normalizar_hora_length (v : PyTime) : (normalizar_hora v).length ≤ 5 := by
  cases v with
  | pnone => simp [normalizar_hora]
  | pstr s =>
    by_cases h : s = [] <;> simp [normalizar_hora, h]
  | pclock h mi sec => simp [normalizar_hora, pad2]
  | pdur secs =>
    by_cases h : secs = 0 <;> simp [normalizar_hora, h, pad2]

/-- Re-normalizing an already normalized time string is the identity:
`normalizar_hora` output is at most five characters, so the string branch
(truncate to five) returns it unchanged. -/
theorem normalizar_hora_restr (v : PyTime) :
    normalizar_hora (.pstr (normalizar_hora v)) = normalizar_hora v := by
  by_cases h : normalizar_hora v = []
  · rw [h]; simp [normalizar_hora]
  · show (if normalizar_hora v = [] then []
      else (normalizar_hora v).take 5) = normalizar_hora v
    rw [if_neg h]
    exact List.take_of_length_le (normalizar_hora_length v)

/-- `int(n) if str(n).isdigit() else n` is the identity on an integer. -/
theorem pyIntCoerceDict_pint (n : Int) : pyIntCoerceDict (.pint n) = .pint n := by
  simp [pyIntCoerceDict]

/-- The `prioridad` transform of `to_dict` is idempotent. -/
theorem pyIntCoerceDict_idem (p : PyIntVal) :
    pyIntCoerceDict (pyIntCoerceDict p) = pyIntCoerceDict p := by
  cases p with
  | pint n => simp [pyIntCoerceDict_pint]
  | pstr s =>
    by_cases h : isdigitL s <;> simp [pyIntCoerceDict, h, ite_self]

/-- C9: Entity view wrapping is idempotent: for every Event record and
every Task record, wrapping the dictionary produced by `to_dict` in a new
`Evento`/`Tarea` and projecting it again yields exactly the same
dictionary; the transform is a pure function of the record. -/
theorem to_dict_idempotent (e : Evento) (t : Tarea) :
    (Evento.ofDict (Evento.to_dict e)).to_dict = e.to_dict ∧
    (Tarea.ofDict (Tarea.to_dict t)).to_dict = t.to_dict := by
  constructor
  · simp [Evento.to_dict, Evento.ofDict, pyDateStr_dstr, normalizar_hora_restr]
  · simp [Tarea.to_dict, Tarea.ofDict, pyDateStr_dstr, normalizar_hora_restr,
      pyIntCoerceDict_idem]

/-- C10: `normalizar_hora` treats every falsy input as absent: a zero
duration (`timedelta(0)` is falsy in Python) returns `''` rather than
`"00:00"`, exactly like `None` and the empty string, because the absence
check `if not hora_val` is a truthiness test. -/
theorem normalizar_hora_falsy_absent :
    normalizar_hora (.pdur 0) = [] ∧
    normalizar_hora .pnone = [] ∧
    normalizar_hora (.pstr "".toList) = [] ∧
    normalizar_hora (.pdur 0) = normalizar_hora .pnone ∧
    normalizar_hora (.pdur 0) = normalizar_hora (.pstr "".toList) := by
  refine ⟨by decide, by decide, by decide, by decide, by decide⟩

/-- C8 counterexample: the claim's duration rule maps a zero duration to
`"00:00"`, but `normalizar_hora` returns `''` for it (truthiness check). -/
theorem normalizar_hora_zero_duration_counterexample :
    normalizar_hora (.pdur 0) = [] ∧
    normalizar_hora (.pdur 0) ≠ "00:00".toList := by
  refine ⟨by decide, by decide⟩

/-- C8 (amended): `normalizar_hora` maps a string to its first five
characters, a clock time to `HH:MM` (zero padded, seconds dropped), a
NONZERO duration to `(total seconds // 3600) mod 24` hours and the
remaining minutes `(total seconds mod 3600) // 60`, and absent input —
`None`, the empty string, and the zero duration, which is falsy — to `''`;
in particular 5400 seconds gives `"01:30"` and `"08:15:00"` gives
`"08:15"`. -/
theorem normalizar_hora_spec (s : List Char) (h : Fin 24) (mi sec : Fin 60)
    (d : Int) :
    normalizar_hora (.pstr s) = s.take 5 ∧
    normalizar_hora (.pclock h mi sec) = pad2 h.val ++ ':' :: pad2 mi.val ∧
    (d ≠ 0 → normalizar_hora (.pdur d) =
      pad2 ((d.fdiv 3600).emod 24).toNat ++ ':' :: pad2 ((d.emod 3600).fdiv 60).toNat) ∧
    normalizar_hora .pnone = [] ∧
    normalizar_hora (.pstr "".toList) = [] ∧
    normalizar_hora (.pdur 0) = [] ∧
    normalizar_hora (.pdur 5400) = "01:30".toList ∧
    normalizar_hora (.pstr "08:15:00".toList) = "08:15".toList := by
  refine ⟨?_, rfl, ?_, rfl, by decide, by decide, by decide, by decide⟩
  · by_cases hs : s = [] <;> simp [normalizar_hora, hs]
  · intro hd; simp [normalizar_hora, hd]

/-- C8 witness: the duration clause of `normalizar_hora_spec` at the
concrete nonzero duration 5400 s. -/
theorem normalizar_hora_spec_witness :
    (5400 : Int) ≠ 0 ∧
    normalizar_hora (.pdur 5400) =
      pad2 (((5400 : Int).fdiv 3600).emod 24).toNat
        ++ ':' :: pad2 (((5400 : Int).emod 3600).fdiv 60).toNat := by
  exact ⟨by decide,
    (normalizar_hora_spec [] 0 0 0 5400).2.2.1 (by decide)⟩

/-- C3 counterexample: with an entry `{token: 1, last_active: 0}` for
"alice", authenticating with the wrong token 2 returns false yet the
entry is still in the map — the token-mismatch path of `login_required`
only clears the client cookie session and never pops the map entry. -/
theorem authenticate_mismatch_keeps_entry :
    (authenticate (Sessions.set Sessions.empty "alice" ⟨1, some 0⟩)
      "alice" 2 0).1 = false ∧
    (authenticate (Sessions.set Sessions.empty "alice" ⟨1, some 0⟩)
      "alice" 2 0).2 "alice" = some ⟨1, some 0⟩ := by
  refine ⟨by decide, by decide⟩

/-- C3 (amended): on a failing `authenticate` call with an existing entry,
the entry is removed when the presented token matches but `last_active`
is missing or inactivity exceeds the TTL; on a token mismatch the entry
is retained (only the client-held session state is cleared). -/
theorem authenticate_failure_cleanup (m : Sessions) (u : String)
    (tok now : Nat) (d : SessionData) (hm : m u = some d)
    (hf : (authenticate m u tok now).1 = false) :
    (d.token = tok → (authenticate m u tok now).2 u = none) ∧
    (d.token ≠ tok → (authenticate m u tok now).2 u = some d) := by
  constructor
  · intro ht
    rcases hla : d.last_active with _ | la
    · simp [authenticate, hm, ht, hla, Sessions.pop]
    · by_cases hex : TTL_SECONDS < now - la
      · simp [authenticate, hm, ht, hla, hex, Sessions.pop]
      · exfalso
        simp [authenticate, hm, ht, hla, hex] at hf
  · intro ht
    simp [authenticate, hm, ht]

/-- C3 witness: the amended theorem at an entry whose inactivity exceeds
the TTL: the matching-token failure removes the entry. -/
theorem authenticate_failure_cleanup_witness :
    (authenticate (Sessions.set Sessions.empty "alice" ⟨1, some 0⟩)
      "alice" 1 5000).2 "alice" = none := by
  exact (authenticate_failure_cleanup
    (Sessions.set Sessions.empty "alice" ⟨1, some 0⟩) "alice" 1 5000
    ⟨1, some 0⟩ (by decide) (by decide)).1 (by decide)

/-- C6: `logout` and `terminate` are idempotent removals that never error
on absence: a second `logout` is a no-op, `terminate` on a user with no
entry leaves the map unchanged (reporting `false`, a flash message, not
an exception), the target entry is unconditionally removed, and no other
user's entry changes. -/
theorem logout_terminate_idempotent (m : Sessions) (u v : String) :
    logout (logout m u) u = logout m u ∧
    (m u = none → terminate m u = (m, false)) ∧
    logout m u u = none ∧
    (terminate m u).1 u = none ∧
    (v ≠ u → logout m u v = m v ∧ (terminate m u).1 v = m v) := by
  refine ⟨?_, ?_, ?_, ?_, ?_⟩
  · funext w
    by_cases hw : w = u <;> simp [logout, Sessions.pop, hw]
  · intro h
    simp [terminate, h]
  · simp [logout, Sessions.pop]
  · rcases h : m u with _ | d
    · simp [terminate, h]
    · simp [terminate, h, Sessions.pop]
  · intro hne
    rcases h : m u with _ | d <;>
      simp [logout, terminate, h, Sessions.pop, hne]

/-- C6 witness: `terminate` on an absent user is a no-op, and `logout`
leaves an unrelated user's entry alone. -/
theorem logout_terminate_idempotent_witness :
    terminate Sessions.empty "alice" = (Sessions.empty, false) ∧
    logout Sessions.empty "alice" "bob" = Sessions.empty "bob" := by
  have h := logout_terminate_idempotent Sessions.empty "alice" "bob"
  exact ⟨h.2.1 rfl, (h.2.2.2.2 (by decide)).1⟩

/-- C7: after a successful rename of a user holding a live session (the
cookie token equals the stored token, a `login_required` guarantee), the
entry sits under the new key with the same token as before — no fresh
token is issued — and `last_active` refreshed to now, and no entry
remains under the old key. -/
theorem rename_moves_session (m : Sessions) (oldU newU : String)
    (d : SessionData) (now : Nat) (_hm : m oldU = some d)
    (hne : oldU ≠ newU) :
    rename m oldU newU (some d.token) now newU = some ⟨d.token, some now⟩ ∧
    rename m oldU newU (some d.token) now oldU = none := by
  constructor
  · simp [rename, Sessions.set]
  · simp [rename, Sessions.set, Sessions.pop, hne]

/-- C7 witness: renaming "alice" (token 7, last active 3) to "bob" at
time 40 moves the entry, keeps token 7 and refreshes `last_active`. -/
theorem rename_moves_session_witness :
    rename (Sessions.set Sessions.empty "alice" ⟨7, some 3⟩)
      "alice" "bob" (some 7) 40 "bob" = some ⟨7, some 40⟩ ∧
    rename (Sessions.set Sessions.empty "alice" ⟨7, some 3⟩)
      "alice" "bob" (some 7) 40 "alice" = none := by
  exact rename_moves_session (Sessions.set Sessions.empty "alice" ⟨7, some 3⟩)
    "alice" "bob" ⟨7, some 3⟩ 40 (by decide) (by decide)

/-- C5: `crear_evento` validates every argument before issuing any
statement: whenever the name fails the safe-text check (max 100,
required), the date fails the `YYYY-MM-DD` parse, the time fails the
`HH:MM` parse, the creator id is not a positive integer, or a present
(truthy) description / end date / end time fails its check, it raises a
`ValueError` and the store is left unchanged. -/
theorem crear_evento_validates (nombre fe he : List Char) (cid : Int)
    (ff hf desc : Option (List Char)) (store : List EventRow)
    (hbad :
      validar_texto_seguro nombre 100 true = false ∨
      validar_fecha_formato fe = false ∨
      validar_hora_formato he = false ∨
      validar_id cid = false ∨
      (truthyOpt desc = true ∧
        validar_texto_seguro (desc.getD []) 500 false = false) ∨
      (truthyOpt ff = true ∧ validar_fecha_formato (ff.getD []) = false) ∨
      (truthyOpt hf = true ∧ validar_hora_formato (hf.getD []) = false)) :
    ∃ msg, crear_evento nombre fe he cid ff hf desc store = (some msg, store) := by
  unfold crear_evento
  split_ifs with h1 h2 h3 h4 h5 h6 h7
  · exact ⟨_, rfl⟩
  · exact ⟨_, rfl⟩
  · exact ⟨_, rfl⟩
  · exact ⟨_, rfl⟩
  · exact ⟨_, rfl⟩
  · exact ⟨_, rfl⟩
  · exact ⟨_, rfl⟩
  · exfalso
    rcases hbad with h | h | h | h | ⟨ha, hb⟩ | ⟨ha, hb⟩ | ⟨ha, hb⟩ <;>
      simp_all

/-- C5 witness: a creation attempt whose date fails the `YYYY-MM-DD`
check (month 13) is rejected and leaves the empty store empty. -/
theorem crear_evento_validates_witness :
    ∃ msg, crear_evento "Standup".toList "2025-13-01".toList "09:00".toList
      1 none none none [] = (some msg, []) := by
  exact crear_evento_validates "Standup".toList "2025-13-01".toList
    "09:00".toList 1 none none none [] (Or.inr (Or.inl (by decide)))

/-- `cleanup` keeps an entry whose inactivity does not strictly exceed the
TTL. -/
theorem cleanup_keep {m : Sessions} {u : String} {now : Nat}
    {d : SessionData} {la : Nat} (hm : m u = some d)
    (hla : d.last_active = some la) (h : ¬ TTL_SECONDS < now - la) :
    cleanup m now u = some d := by
  simp [cleanup, hm, hla, h]

/-- `cleanup` creates no entries. -/
theorem cleanup_none {m : Sessions} {u : String} {now : Nat}
    (hm : m u = none) : cleanup m now u = none := by
  simp [cleanup, hm]

/-- An entry surviving `cleanup` is the entry of the original map. -/
theorem cleanup_sound {m : Sessions} {u : String} {now : Nat}
    {d : SessionData} (h : cleanup m now u = some d) : m u = some d := by
  rcases hm : m u with _ | d'
  · simp [cleanup, hm] at h
  · rcases hla : d'.last_active with _ | la
    · simp [cleanup, hm, hla] at h
    · by_cases hex : TTL_SECONDS < now - la
      · simp [cleanup, hm, hla, hex] at h
      · simp [cleanup, hm, hla, hex] at h
        rw [h]

/-- An `authenticate` call presenting a token different from the stored
one fails. -/
theorem authenticate_wrong_token {m : Sessions} {u : String}
    {tok now : Nat} {d : SessionData} (hm : m u = some d)
    (hne : d.token ≠ tok) : (authenticate m u tok now).1 = false := by
  simp [authenticate, hm, hne]

/-- C1: `try_login` enforces at most one live session per user.  With an
entry whose inactivity is strictly below the TTL, an unforced attempt is
rejected with the minutes remaining (`30 - elapsed_minutes`) whatever the
credentials, and the map is only touched by the global cleanup.  When the
entry is expired or `force` is set (and credentials check out), the entry
is overwritten with the fresh token and `last_active = now`, the attempt
is granted, and — the fresh token being distinct from the stored one —
the old token no longer authenticates.  With no entry, a fresh entry is
created and the attempt is granted. -/
theorem try_login_single_session (m : Sessions) (u : String) (now : Nat)
    (newTok : Nat) (d : SessionData) (la : Nat) :
    (m u = some d → d.last_active = some la → now - la < TTL_SECONDS →
      ∀ credsOk, login m u now false credsOk newTok =
        (.rejected (SESSION_TTL_MINUTES - (now - la) / 60), cleanup m now)) ∧
    (∀ force, m u = some d → d.last_active = some la →
      (force = true ∨ TTL_SECONDS ≤ now - la) →
      (login m u now force true newTok).1 = .granted newTok ∧
      (login m u now force true newTok).2 u = some ⟨newTok, some now⟩ ∧
      (newTok ≠ d.token → ∀ t2,
        (authenticate (login m u now force true newTok).2 u d.token t2).1
          = false)) ∧
    (m u = none → ∀ force,
      (login m u now force true newTok).1 = .granted newTok ∧
      (login m u now force true newTok).2 u = some ⟨newTok, some now⟩) := by
  refine ⟨?_, ?_, ?_⟩
  · intro hm hla hlt credsOk
    have hcu : cleanup m now u = some d := cleanup_keep hm hla (by omega)
    simp [login, hcu, hla, hlt]
  · intro force hm hla hcase
    have key : ∃ M, login m u now force true newTok =
        (.granted newTok, Sessions.set M u ⟨newTok, some now⟩) := by
      rcases hcu : cleanup m now u with _ | d'
      · refine ⟨cleanup m now, ?_⟩
        cases force <;> simp [login, hcu, loginFinish]
      · have hd' : d' = d := by
          have := cleanup_sound hcu
          rw [hm] at this
          exact (Option.some.injEq _ _).mp this.symm
        subst hd'
        cases force with
        | true =>
          exact ⟨(cleanup m now).pop u, by simp [login, hcu, loginFinish]⟩
        | false =>
          have hexp : TTL_SECONDS ≤ now - la := by
            rcases hcase with h | h
            · exact absurd h (by simp)
            · exact h
          refine ⟨(cleanup m now).pop u, ?_⟩
          simp [login, hcu, hla, loginFinish]
          omega
    obtain ⟨M, hM⟩ := key
    refine ⟨by rw [hM], ?_, ?_⟩
    · rw [hM]; simp [Sessions.set]
    · intro hne t2
      rw [hM]
      refine authenticate_wrong_token (d := ⟨newTok, some now⟩) ?_ hne
      simp [Sessions.set]
  · intro hm force
    have hcu : cleanup m now u = none := cleanup_none hm
    cases force <;>
      simp [login, hcu, loginFinish, Sessions.set]

/-- C1 witness: "alice" has an entry (token 7) expired for 2000 s; an
unforced login with good credentials is granted fresh token 9, the entry
is overwritten, and the old token 7 no longer authenticates. -/
theorem try_login_single_session_witness :
    (login (Sessions.set Sessions.empty "alice" ⟨7, some 0⟩)
      "alice" 2000 false true 9).1 = .granted 9 ∧
    (login (Sessions.set Sessions.empty "alice" ⟨7, some 0⟩)
      "alice" 2000 false true 9).2 "alice" = some ⟨9, some 2000⟩ ∧
    (authenticate (login (Sessions.set Sessions.empty "alice" ⟨7, some 0⟩)
      "alice" 2000 false true 9).2 "alice" 7 2000).1 = false := by
  have h := (try_login_single_session
    (Sessions.set Sessions.empty "alice" ⟨7, some 0⟩) "alice" 2000 9
    ⟨7, some 0⟩ 0).2.1 false (by decide) (by decide)
    (Or.inr (by decide))
  exact ⟨h.1, h.2.1, h.2.2 (by decide) 2000⟩

/-- C2: `authenticate` succeeds iff an entry exists for the user, its
stored token equals the presented one, and `now - last_active` is at most
the TTL; on success it refreshes `last_active` to `now` (sliding
expiration), so after a success at `now` the same token still succeeds at
`now + TTL - ε` and fails at `now + TTL + ε` for every ε ≥ 1. -/
theorem authenticate_spec (m : Sessions) (u : String) (tok now : Nat) :
    ((authenticate m u tok now).1 = true ↔
      ∃ d la, m u = some d ∧ d.token = tok ∧ d.last_active = some la ∧
        now - la ≤ TTL_SECONDS) ∧
    ((authenticate m u tok now).1 = true →
      (authenticate m u tok now).2 u = some ⟨tok, some now⟩) ∧
    ((authenticate m u tok now).1 = true → ∀ ε, 1 ≤ ε →
      (authenticate (authenticate m u tok now).2 u tok
        (now + TTL_SECONDS - ε)).1 = true ∧
      (authenticate (authenticate m u tok now).2 u tok
        (now + TTL_SECONDS + ε)).1 = false) := by
  rcases hm : m u with _ | d
  · simp [authenticate, hm]
  · by_cases ht : d.token = tok
    · rcases hla : d.last_active with _ | la
      · simp [authenticate, hm, ht, hla]
      · by_cases hex : TTL_SECONDS < now - la
        · simp [authenticate, hm, ht, hla, hex]
          omega
        · have hfst : (authenticate m u tok now).1 = true := by
            simp [authenticate, hm, ht, hla, hex]
          have hmap : (authenticate m u tok now).2 u = some ⟨tok, some now⟩ := by
            simp [authenticate, hm, ht, hla, hex, Sessions.set]
          refine ⟨⟨fun _ => ⟨d, la, rfl, ht, hla, by omega⟩, fun _ => hfst⟩,
            fun _ => hmap, fun _ ε hε => ?_⟩
          obtain ⟨M, hM⟩ : ∃ M, (authenticate m u tok now).2 = M := ⟨_, rfl⟩
          rw [hM] at hmap ⊢
          constructor
          · have hin : ¬ TTL_SECONDS < (now + TTL_SECONDS - ε) - now := by
              omega
            simp [authenticate, hmap, hin]
          · have hout : TTL_SECONDS < (now + TTL_SECONDS + ε) - now := by
              omega
            simp [authenticate, hmap, hout]
    · refine ⟨⟨?_, ?_⟩, ?_, ?_⟩
      · intro h
        simp [authenticate, hm, ht] at h
      · rintro ⟨d', la, hd', htok, -, -⟩
        injection hd' with hdd
        subst hdd
        exact absurd htok ht
      · intro h
        simp [authenticate, hm, ht] at h
      · intro h
        simp [authenticate, hm, ht] at h

/-- C2 witness: "bob" (token 5, last active 100) authenticates at 200:
`last_active` is refreshed to 200 and, with ε = 1, the token fails at
`200 + TTL + 1`. -/
theorem authenticate_spec_witness :
    (authenticate (Sessions.set Sessions.empty "bob" ⟨5, some 100⟩)
      "bob" 5 200).2 "bob" = some ⟨5, some 200⟩ ∧
    (authenticate (authenticate (Sessions.set Sessions.empty "bob"
      ⟨5, some 100⟩) "bob" 5 200).2 "bob" 5 (200 + TTL_SECONDS + 1)).1
        = false := by
  have h := authenticate_spec
    (Sessions.set Sessions.empty "bob" ⟨5, some 100⟩) "bob" 5 200
  exact ⟨h.2.1 (by decide), (h.2.2 (by decide) 1 (by decide)).2⟩

/-- C4: on a forced login attempt for a user holding a session entry, that
entry is popped (PASO 3) before credentials are verified (PASO 4); if the
password check then fails, the attempt returns "Credenciales inválidas",
the previous entry is gone, no new entry was created, and the previously
issued token no longer authenticates. -/
theorem force_login_badcreds (m : Sessions) (u : String) (now : Nat)
    (newTok : Nat) (d : SessionData) (_hm : m u = some d) :
    (login m u now true false newTok).1 = .badCreds ∧
    (login m u now true false newTok).2 u = none ∧
    (∀ t2, (authenticate (login m u now true false newTok).2 u d.token
      t2).1 = false) := by
  have key : (login m u now true false newTok).1 = .badCreds ∧
      (login m u now true false newTok).2 u = none := by
    rcases hcu : cleanup m now u with _ | d'
    · simp [login, hcu, loginFinish]
    · simp [login, hcu, loginFinish, Sessions.pop]
  refine ⟨key.1, key.2, fun t2 => ?_⟩
  simp [authenticate, key.2]

/-- C4 witness: "carol" (token 4) suffers a forced takeover attempt with a
wrong password: her entry is gone, no session was created, and token 4 no
longer authenticates. -/
theorem force_login_badcreds_witness :
    (login (Sessions.set Sessions.empty "carol" ⟨4, some 0⟩)
      "carol" 10 true false 9).1 = .badCreds ∧
    (login (Sessions.set Sessions.empty "carol" ⟨4, some 0⟩)
      "carol" 10 true false 9).2 "carol" = none ∧
    (authenticate (login (Sessions.set Sessions.empty "carol" ⟨4, some 0⟩)
      "carol" 10 true false 9).2 "carol" 4 10).1 = false := by
  have h := force_login_badcreds
    (Sessions.set Sessions.empty "carol" ⟨4, some 0⟩) "carol" 10 9
    ⟨4, some 0⟩ (by decide)
  exact ⟨h.1, h.2.1, h.2.2 10⟩
